import Mathlib

/-!
Verification of the capture state machine of the photobooth component
(`src/components/photo-shoot.tsx`).  The component's React state is embedded
as a record `PhotoState`; each handler of the component becomes a pure
function on that record, and the reactive effects (countdown effect,
max-capture effect, keyboard dispatcher, timer callbacks) become explicit
events of a transition system.
-/

namespace Booth

/-- The named numeric filter knobs (percentages), as held in the component's
`filters` state. -/
structure FilterSettings where
  brightness : Nat
  contrast : Nat
  grayscale : Nat
  sepia : Nat
  saturate : Nat
deriving Repr, DecidableEq

/-- Modelled from the spec: the constants module (`@/constants`) is not part
of the sources; the spec fixes the maximum capture count at 10
("with auto-mode on and MAX_CAPTURE=10"). -/
def MAX_CAPTURE : Nat := 10

/-- Modelled from the spec: the ordered list of selectable countdown
durations (seconds); the spec's scenarios use the duration 3 as the
selected/default timer. -/
def TIMER_OPTIONS : List Nat := [3, 5, 10]

/-- Modelled from the spec: the default index into `TIMER_OPTIONS`, chosen so
that the default selected timer is 3 as in the spec's scenario. -/
def DEFAULT_TIMER_INDEX : Nat := 0

/-- Modelled from the spec: default filter values — brightness, contrast and
saturate each toggle "between a neutral value and a boosted value", so their
defaults are the neutral 100%; grayscale and sepia start inactive (0). -/
def DEFAULT_FILTERS : FilterSettings :=
  { brightness := 100, contrast := 100, grayscale := 0, sepia := 0, saturate := 100 }

/-- The component's state: every `useState` hook plus the `hasCapturedRef`
re-entrancy guard, plus `pendingRestart`, which records that the 1-second
inter-capture pause timeout scheduled by `scheduleNextAutoCapture` is
currently pending (its firing is the `pauseElapsed` step). -/
structure PhotoState where
  filters : FilterSettings
  isMirrored : Bool
  isCameraStarted : Bool
  cameraError : Bool
  activeFilters : List String
  isCapturing : Bool
  isAutoModeEnabled : Bool
  isAutoSequenceActive : Bool
  selectedTimerIndex : Nat
  countdown : Option Nat
  capturedImages : List String
  hasCaptured : Bool
  pendingRestart : Bool
deriving Repr, DecidableEq

/-- Initial state at mount: default filters, mirrored preview, active filter
list `["mirror"]`, camera not yet started, empty collection. -/
def initState : PhotoState :=
  { filters := DEFAULT_FILTERS
    isMirrored := true
    isCameraStarted := false
    cameraError := false
    activeFilters := ["mirror"]
    isCapturing := false
    isAutoModeEnabled := false
    isAutoSequenceActive := false
    selectedTimerIndex := DEFAULT_TIMER_INDEX
    countdown := none
    capturedImages := []
    hasCaptured := false
    pendingRestart := false }

/-- `capturedImages.length >= MAX_CAPTURE` (line 56 of the source). -/
def isMaxCaptureReached (st : PhotoState) : Bool :=
  decide (MAX_CAPTURE ≤ st.capturedImages.length)

/-- `!isCameraStarted` (line 55). -/
def filterDisabled (st : PhotoState) : Bool :=
  !st.isCameraStarted

/-- `TIMER_OPTIONS[selectedTimerIndex]` (line 57). -/
def selectedTimer (st : PhotoState) : Nat :=
  TIMER_OPTIONS.getD st.selectedTimerIndex 0

/-- `!capturedImages.length || isAutoSequenceActive || countdown !== null`
(lines 138-139). -/
def undoDisabled (st : PhotoState) : Bool :=
  st.capturedImages.isEmpty || st.isAutoSequenceActive || st.countdown.isSome

/-- `!isCameraStarted || isAutoSequenceActive || countdown !== null`
(lines 140-141). -/
def timerDisabled (st : PhotoState) : Bool :=
  !st.isCameraStarted || st.isAutoSequenceActive || st.countdown.isSome

/-- `!isCameraStarted || isMaxCaptureReached || isCapturing ||
countdown !== null || isAutoSequenceActive` (lines 145-150). -/
def autoDisabled (st : PhotoState) : Bool :=
  !st.isCameraStarted || isMaxCaptureReached st || st.isCapturing ||
    st.countdown.isSome || st.isAutoSequenceActive

/-- `!capturedImages.length || isAutoSequenceActive || countdown !== null`
(lines 151-152). -/
def resetDisabled (st : PhotoState) : Bool :=
  st.capturedImages.isEmpty || st.isAutoSequenceActive || st.countdown.isSome

/-- `scheduleNextAutoCapture` (lines 291-301).  `renderLen` is the value of
`capturedImages.length` captured by the render closure — the length *before*
the append performed by `captureImage`.  The continue-branch's
`setTimeout(..., 1000)` is recorded as `pendingRestart := true`; the timeout
body runs at the `pauseElapsed` step. -/
def scheduleNextAutoCapture (renderLen : Nat) (st : PhotoState) : PhotoState :=
  if st.isAutoModeEnabled && decide (renderLen < MAX_CAPTURE - 1) then
    { st with pendingRestart := true }
  else
    { st with isAutoSequenceActive := false, countdown := none }

/-- The 1-second pause timeout of `scheduleNextAutoCapture` firing
(lines 293-296): clears the re-entrancy guard and seeds a new countdown with
the selected timer. -/
def pauseElapsed (st : PhotoState) : PhotoState :=
  if st.pendingRestart then
    { st with pendingRestart := false
              hasCaptured := false
              countdown := some (selectedTimer st) }
  else st

/-- `captureImage` (lines 100-135): guarded by camera-started, quota and the
`isCapturing` re-entrancy flag; on success composites the frame to `img`,
appends it, and calls `scheduleNextAutoCapture` (which reads the pre-append
collection length from its render closure). -/
def captureImage (img : String) (st : PhotoState) : PhotoState :=
  if !st.isCameraStarted || isMaxCaptureReached st || st.isCapturing then st
  else
    scheduleNextAutoCapture st.capturedImages.length
      { st with capturedImages := st.capturedImages ++ [img], isCapturing := false }

/-- `undoCapture` (lines 155-160): drops the most recent capture unless
disabled. -/
def undoCapture (st : PhotoState) : PhotoState :=
  if undoDisabled st then st
  else if st.capturedImages.isEmpty then st
  else { st with capturedImages := st.capturedImages.dropLast }

/-- `stopAutoSequence` (lines 256-259). -/
def stopAutoSequence (st : PhotoState) : PhotoState :=
  { st with isAutoSequenceActive := false, countdown := none }

/-- `resetCaptures` (lines 163-167): clears the collection and stops the auto
sequence, unless disabled. -/
def resetCaptures (st : PhotoState) : PhotoState :=
  if resetDisabled st then st
  else stopAutoSequence { st with capturedImages := [] }

/-- `resetFilters` (lines 170-174): restores default filters and the default
active-filter list, unless disabled. -/
def resetFilters (st : PhotoState) : PhotoState :=
  if resetDisabled st then st
  else { st with filters := DEFAULT_FILTERS, activeFilters := ["mirror"] }

/-- `toggleFilter` (lines 177-244). -/
def toggleFilter (id : String) (st : PhotoState) : PhotoState :=
  if filterDisabled st then st
  else if id = "mirror" then
    { st with isMirrored := !st.isMirrored
              activeFilters :=
                if st.activeFilters.contains "mirror" then
                  st.activeFilters.filter (fun f => f != "mirror")
                else st.activeFilters ++ ["mirror"] }
  else if id = "grayscale" then
    { st with filters := { st.filters with
                           grayscale := if st.filters.grayscale = 0 then 100 else 0
                           sepia := 0 }
              activeFilters :=
                let newFilters :=
                  st.activeFilters.filter (fun f => f != "sepia" && f != "grayscale")
                if st.activeFilters.contains "grayscale" then newFilters
                else newFilters ++ ["grayscale"] }
  else if id = "sepia" then
    { st with filters := { st.filters with
                           sepia := if st.filters.sepia = 0 then 100 else 0
                           grayscale := 0 }
              activeFilters :=
                let newFilters :=
                  st.activeFilters.filter (fun f => f != "sepia" && f != "grayscale")
                if st.activeFilters.contains "sepia" then newFilters
                else newFilters ++ ["sepia"] }
  else if id = "brightness" then
    { st with filters := { st.filters with
                           brightness := if st.filters.brightness = 100 then 130 else 100 }
              activeFilters :=
                if st.activeFilters.contains "brightness" then
                  st.activeFilters.filter (fun f => f != "brightness")
                else st.activeFilters ++ ["brightness"] }
  else if id = "contrast" then
    { st with filters := { st.filters with
                           contrast := if st.filters.contrast = 100 then 130 else 100 }
              activeFilters :=
                if st.activeFilters.contains "contrast" then
                  st.activeFilters.filter (fun f => f != "contrast")
                else st.activeFilters ++ ["contrast"] }
  else if id = "saturate" then
    { st with filters := { st.filters with
                           saturate := if st.filters.saturate = 100 then 150 else 100 }
              activeFilters :=
                if st.activeFilters.contains "saturate" then
                  st.activeFilters.filter (fun f => f != "saturate")
                else st.activeFilters ++ ["saturate"] }
  else st

/-- `startCapture` (lines 247-254): only guarded by the quota; seeds the
countdown with the selected timer and, if auto mode is enabled, marks the
auto sequence active. -/
def startCapture (st : PhotoState) : PhotoState :=
  if isMaxCaptureReached st then st
  else if st.isAutoModeEnabled then
    { st with countdown := some (selectedTimer st), isAutoSequenceActive := true }
  else { st with countdown := some (selectedTimer st) }

/-- `toggleAutoMode` (lines 261-267): no-op when `autoDisabled`; otherwise
flips the mode flag and (dead under the guard) would stop an active
sequence. -/
def toggleAutoMode (st : PhotoState) : PhotoState :=
  if autoDisabled st then st
  else if st.isAutoSequenceActive then
    stopAutoSequence { st with isAutoModeEnabled := !st.isAutoModeEnabled }
  else { st with isAutoModeEnabled := !st.isAutoModeEnabled }

/-- `cycleTimer` (lines 59-62). -/
def cycleTimer (st : PhotoState) : PhotoState :=
  if timerDisabled st then st
  else { st with selectedTimerIndex := (st.selectedTimerIndex + 1) % TIMER_OPTIONS.length }

/-- The countdown effect body (lines 273-288), run whenever the `countdown`
state changes (and on any re-render): at `null` or a positive value it clears
the `hasCapturedRef` guard; at zero it sets the guard and fires
`captureImage` exactly when the guard was clear.  `img` is the frame the
compositor would produce. -/
def countdownEffect (img : String) (st : PhotoState) : PhotoState :=
  match st.countdown with
  | none => { st with hasCaptured := false }
  | some (_ + 1) => { st with hasCaptured := false }
  | some 0 =>
      if st.hasCaptured then st
      else captureImage img { st with hasCaptured := true }

/-- A one-second countdown tick (the `setTimeout` of lines 280-282 firing):
decrements a positive countdown and then runs the countdown effect on the
new value. -/
def tick (img : String) (st : PhotoState) : PhotoState :=
  match st.countdown with
  | some (n + 1) => countdownEffect img { st with countdown := some n }
  | _ => st

/-- The effect of lines 89-97: when the quota is reached while an auto
sequence is active, stop the sequence. -/
def maxCaptureEffect (st : PhotoState) : PhotoState :=
  if isMaxCaptureReached st && st.isAutoSequenceActive then stopAutoSequence st
  else st

/-- The keyboard dispatcher (lines 304-339).  `canProceed` is the
`canProceedToLayout` prop; `goToLayoutScreen` is external and leaves the
controller state unchanged. -/
def handleKeyDown (key : String) (canProceed : Bool) (st : PhotoState) : PhotoState :=
  if key = " " ∨ key = "Enter" then
    if canProceed then st
    else if st.isAutoSequenceActive then stopAutoSequence st
    else if st.countdown.isNone then startCapture st
    else { st with countdown := none }
  else if key = "Backspace" ∨ key = "Delete" then undoCapture st
  else if key = "Escape" then resetCaptures st
  else if key = "a" then toggleAutoMode st
  else st

/-- Events of the transition system: the camera-acquisition outcome, every
user-invocable handler, the timer callbacks (countdown tick, inter-capture
pause), redundant re-runs of the countdown effect, the max-capture effect,
and keyboard events. -/
inductive Ev where
  | cameraStarts
  | cameraFails
  | capture (img : String)
  | undo
  | reset
  | filtersReset
  | start
  | stopSeq
  | autoToggle
  | filterToggle (id : String)
  | timerCycle
  | tickEv (img : String)
  | effectRun (img : String)
  | pauseDone
  | maxEffect
  | keydown (key : String) (canProceed : Bool)
deriving Repr

/-- One step of the transition system. -/
def step (e : Ev) (st : PhotoState) : PhotoState :=
  match e with
  | .cameraStarts =>
      if st.isCameraStarted then st
      else { st with isCameraStarted := true, cameraError := false }
  | .cameraFails => { st with cameraError := true }
  | .capture img => captureImage img st
  | .undo => undoCapture st
  | .reset => resetCaptures st
  | .filtersReset => resetFilters st
  | .start => startCapture st
  | .stopSeq => stopAutoSequence st
  | .autoToggle => toggleAutoMode st
  | .filterToggle id => toggleFilter id st
  | .timerCycle => cycleTimer st
  | .tickEv img => tick img st
  | .effectRun img => countdownEffect img st
  | .pauseDone => pauseElapsed st
  | .maxEffect => maxCaptureEffect st
  | .keydown k c => handleKeyDown k c st

/-- Run a sequence of events from the initial state. -/
def runEvents (evs : List Ev) : PhotoState :=
  evs.foldl (fun st e => step e st) initState

end Booth

namespace Booth

/-! ### Basic preservation lemmas -/

@[simp] lemma scheduleNextAutoCapture_capturedImages (n : Nat) (st : PhotoState) :
    (scheduleNextAutoCapture n st).capturedImages = st.capturedImages := by
  unfold scheduleNextAutoCapture; split <;> rfl

@[simp] lemma scheduleNextAutoCapture_filters (n : Nat) (st : PhotoState) :
    (scheduleNextAutoCapture n st).filters = st.filters := by
  unfold scheduleNextAutoCapture; split <;> rfl

@[simp] lemma pauseElapsed_capturedImages (st : PhotoState) :
    (pauseElapsed st).capturedImages = st.capturedImages := by
  unfold pauseElapsed; split <;> rfl

@[simp] lemma pauseElapsed_filters (st : PhotoState) :
    (pauseElapsed st).filters = st.filters := by
  unfold pauseElapsed; split <;> rfl

@[simp] lemma stopAutoSequence_capturedImages (st : PhotoState) :
    (stopAutoSequence st).capturedImages = st.capturedImages := rfl

@[simp] lemma stopAutoSequence_filters (st : PhotoState) :
    (stopAutoSequence st).filters = st.filters := rfl

end Booth

namespace Booth

/-! ### C8: guarded capture silently declines -/

/-- C8: whenever the capture quota is reached, a capture is already in
progress, or the camera has not started, `captureImage` returns the state
completely unchanged (a silent no-op, no error). -/
theorem capture_silently_declines (st : PhotoState) (img : String)
    (h : MAX_CAPTURE ≤ st.capturedImages.length ∨ st.isCapturing = true ∨
      st.isCameraStarted = false) :
    captureImage img st = st := by
  unfold captureImage
  rcases h with h | h | h
  · simp [isMaxCaptureReached, h]
  · simp [h]
  · simp [h]

/-- Witness for C8: at the initial state the camera has not started, and
`captureImage` leaves the state unchanged. -/
theorem capture_silently_declines_witness :
    captureImage "frame" initState = initState :=
  capture_silently_declines initState "frame" (Or.inr (Or.inr rfl))

/-! ### C10: resetFilters is a no-op while reset is disabled -/

/-- C10: with an empty collection, or an active auto-sequence, or a countdown
in progress, `resetFilters` leaves the state (in particular `filters` and
`activeFilters`) unchanged. -/
theorem resetFilters_noop_when_disabled (st : PhotoState)
    (h : st.capturedImages = [] ∨ st.isAutoSequenceActive = true ∨
      st.countdown ≠ none) :
    resetFilters st = st := by
  unfold resetFilters resetDisabled
  rcases h with h | h | h
  · simp [h]
  · simp [h]
  · simp [Option.isSome_iff_ne_none, h]

/-- Witness for C10: the initial state has an empty collection, and
`resetFilters` leaves it unchanged. -/
theorem resetFilters_noop_when_disabled_witness :
    resetFilters initState = initState :=
  resetFilters_noop_when_disabled initState (Or.inl rfl)

end Booth

namespace Booth

/-! ### C4: undo is a strict inverse of a successful capture -/

/-- C4: when a capture succeeds (camera started, quota not reached, no capture
in progress) it appends exactly the new frame, and if the resulting state
permits undo, `undoCapture` returns the collection exactly to its value
before the capture, removing only the most recent entry. -/
theorem capture_undo_inverse (st : PhotoState) (img : String)
    (hcam : st.isCameraStarted = true)
    (hmax : st.capturedImages.length < MAX_CAPTURE)
    (hcap : st.isCapturing = false)
    (hundo : undoDisabled (captureImage img st) = false) :
    (captureImage img st).capturedImages = st.capturedImages ++ [img] ∧
    (undoCapture (captureImage img st)).capturedImages = st.capturedImages := by
  have happ : (captureImage img st).capturedImages = st.capturedImages ++ [img] := by
    unfold captureImage
    simp [hcam, hcap, isMaxCaptureReached, Nat.not_le.mpr hmax]
  refine ⟨happ, ?_⟩
  unfold undoCapture
  rw [hundo]
  simp [happ]

/-- Witness for C4: from a camera-started state with an empty collection, a
capture appends one frame and an immediate undo restores the empty
collection. -/
theorem capture_undo_inverse_witness :
    (captureImage "frame" { initState with isCameraStarted := true }).capturedImages
        = [] ++ ["frame"] ∧
    (undoCapture (captureImage "frame"
        { initState with isCameraStarted := true })).capturedImages = [] :=
  capture_undo_inverse { initState with isCameraStarted := true } "frame"
    rfl (by decide) rfl (by decide)

end Booth

namespace Booth

/-! ### C6: reset during a countdown -/

/-- A state with a countdown at 2 and one captured image. -/
def resetCexState : PhotoState :=
  { initState with
      isCameraStarted := true
      countdown := some 2
      capturedImages := ["a"] }

/-- C6 counterexample: with a countdown at 2 and a non-empty collection,
`resetCaptures` (and the Escape key, which calls it) neither clears the
countdown nor empties the collection — `resetDisabled` makes it a no-op. -/
theorem reset_noop_during_countdown_cex :
    (resetCaptures resetCexState).countdown = some 2 ∧
    (resetCaptures resetCexState).capturedImages = ["a"] ∧
    handleKeyDown "Escape" false resetCexState = resetCexState :=
  ⟨rfl, rfl, rfl⟩

/-- C6 amended: `resetCaptures` (and Escape) is a no-op whenever a countdown
is in progress (and likewise when the collection is empty or an
auto-sequence is active); only when the collection is non-empty, no
auto-sequence is active and no countdown is in progress does it empty the
collection, clear the countdown and return the state to Idle.  The Escape
key always dispatches to `resetCaptures`. -/
theorem reset_behavior (st : PhotoState) :
    (st.countdown ≠ none → resetCaptures st = st) ∧
    (st.capturedImages ≠ [] → st.isAutoSequenceActive = false →
      st.countdown = none →
      (resetCaptures st).capturedImages = [] ∧
      (resetCaptures st).countdown = none ∧
      (resetCaptures st).isAutoSequenceActive = false) ∧
    (∀ c, handleKeyDown "Escape" c st = resetCaptures st) := by
  refine ⟨?_, ?_, ?_⟩
  · intro h
    unfold resetCaptures resetDisabled
    simp [Option.isSome_iff_ne_none, h]
  · intro hne hseq hcd
    unfold resetCaptures resetDisabled stopAutoSequence
    simp [hne, hseq, hcd]
  · intro c
    rfl

/-- Witness for C6 (amended): the no-op branch applied at a countdown state,
and the enabled branch applied at a quiescent state with one image. -/
theorem reset_behavior_witness :
    resetCaptures resetCexState = resetCexState ∧
    (resetCaptures { initState with capturedImages := ["a"] }).capturedImages = [] :=
  ⟨(reset_behavior resetCexState).1 (by decide),
   ((reset_behavior { initState with capturedImages := ["a"] }).2.1
      (by decide) rfl rfl).1⟩

/-! ### C7: disabling auto-mode mid-sequence is impossible -/

/-- A state in the middle of an auto sequence: auto mode on, sequence active,
countdown at 2, one image captured. -/
def autoSeqState : PhotoState :=
  { initState with
      isCameraStarted := true
      isAutoModeEnabled := true
      isAutoSequenceActive := true
      countdown := some 2
      capturedImages := ["a"] }

/-- C7: at the failing input — an active auto sequence — `toggleAutoMode`
(and the 'a' key) is a no-op: `autoDisabled` includes
`isAutoSequenceActive` and `countdown !== null`, so the handler returns
before its own `stopAutoSequence` branch, which is therefore dead code; the
sequence is not halted and the state does not return to Idle. -/
theorem toggleAutoMode_noop_mid_sequence :
    toggleAutoMode autoSeqState = autoSeqState ∧
    handleKeyDown "a" false autoSeqState = autoSeqState ∧
    autoSeqState.isAutoSequenceActive = true ∧
    autoSeqState.isAutoModeEnabled = true :=
  ⟨rfl, rfl, rfl, rfl⟩

end Booth

namespace Booth

/-! ### C2: a countdown reaching zero -/

/-- A reachable trace in which the countdown reaches zero without the camera
having started: Space starts a countdown (`startCapture` checks only the
quota), three ticks bring it to zero, and the zero-tick fires a capture
attempt that the camera guard declines. -/
def noCameraCountdownEvents : List Ev :=
  [Ev.keydown " " false, Ev.tickEv "a", Ev.tickEv "b", Ev.tickEv "c"]

/-- C2 counterexample: after `noCameraCountdownEvents` the countdown has
reached zero (the zero-tick fired, setting the `hasCapturedRef` guard), yet
zero images were appended — so a countdown reaching zero does not always
produce exactly one capture. -/
theorem countdown_zero_without_camera_cex :
    (runEvents noCameraCountdownEvents).countdown = some 0 ∧
    (runEvents noCameraCountdownEvents).hasCaptured = true ∧
    (runEvents noCameraCountdownEvents).capturedImages = [] :=
  ⟨rfl, rfl, rfl⟩

/-- C2 amended: when the countdown reaches zero in a state where the capture
guards pass (camera started, quota not reached, no capture in progress),
exactly one image is appended — and any redundant re-fire of the zero-tick
effect appends nothing further. -/
theorem countdown_zero_exactly_one_capture (st : PhotoState) (img : String)
    (hcam : st.isCameraStarted = true)
    (hmax : st.capturedImages.length < MAX_CAPTURE)
    (hcap : st.isCapturing = false)
    (hcd : st.countdown = some 0)
    (hhc : st.hasCaptured = false) :
    (countdownEffect img st).capturedImages = st.capturedImages ++ [img] ∧
    ∀ img2, (countdownEffect img2 (countdownEffect img st)).capturedImages
      = st.capturedImages ++ [img] := by
  have h1 : countdownEffect img st = captureImage img { st with hasCaptured := true } := by
    unfold countdownEffect
    rw [hcd]
    simp [hhc]
  have h2 : captureImage img { st with hasCaptured := true }
      = scheduleNextAutoCapture st.capturedImages.length
          { st with capturedImages := st.capturedImages ++ [img]
                    isCapturing := false
                    hasCaptured := true } := by
    unfold captureImage
    simp [hcam, hcap, isMaxCaptureReached, Nat.not_le.mpr hmax]
  constructor
  · rw [h1, h2]
    simp
  · intro img2
    rw [h1, h2]
    unfold scheduleNextAutoCapture
    split
    · unfold countdownEffect
      rw [show ({ st with capturedImages := st.capturedImages ++ [img]
                          isCapturing := false
                          hasCaptured := true
                          pendingRestart := true } : PhotoState).countdown
            = some 0 from hcd]
      simp
    · unfold countdownEffect
      simp

end Booth

namespace Booth

/-- Witness for C2 (amended): a camera-started state with the countdown at
zero and the guard clear yields exactly one appended frame, and a redundant
re-fire appends nothing. -/
theorem countdown_zero_exactly_one_capture_witness :
    (countdownEffect "p"
        { initState with isCameraStarted := true, countdown := some 0 }).capturedImages
      = [] ++ ["p"] ∧
    ∀ img2, (countdownEffect img2 (countdownEffect "p"
        { initState with isCameraStarted := true, countdown := some 0 })).capturedImages
      = [] ++ ["p"] :=
  countdown_zero_exactly_one_capture
    { initState with isCameraStarted := true, countdown := some 0 } "p"
    rfl (by decide) rfl rfl rfl

/-! ### C5: post-capture auto continuation -/

/-- A reachable trace exercising the stale pause timeout: an auto sequence is
started and captures once ("c"); during the 1-second inter-capture pause the
user presses Space, which stops the sequence but does not clear the pending
pause timeout; the timeout then fires, a fresh countdown runs down, and a
second capture ("f") completes with `isAutoSequenceActive = false`. -/
def staleAutoPauseEvents : List Ev :=
  [Ev.cameraStarts, Ev.autoToggle, Ev.start,
   Ev.tickEv "a", Ev.tickEv "b", Ev.tickEv "c",
   Ev.keydown " " false, Ev.pauseDone,
   Ev.tickEv "d", Ev.tickEv "e"]

/-- The state right before the final zero-tick of `staleAutoPauseEvents`. -/
def staleAutoPauseState : PhotoState := runEvents staleAutoPauseEvents

/-- C5 counterexample: at `staleAutoPauseState` the auto sequence is inactive,
yet the capture completed by the next tick schedules a further countdown
(the code tests `isAutoModeEnabled`, not the AutoSequencing flag): the
pause timeout is pending, the countdown is not cleared to `none`, and after
the pause a new countdown (3) starts — the claim instead requires this
capture to clear AutoSequencing and set the countdown to none. -/
theorem auto_continues_despite_inactive_sequence_cex :
    staleAutoPauseState.isAutoSequenceActive = false ∧
    staleAutoPauseState.isAutoModeEnabled = true ∧
    (tick "f" staleAutoPauseState).capturedImages = ["c", "f"] ∧
    (tick "f" staleAutoPauseState).pendingRestart = true ∧
    (tick "f" staleAutoPauseState).countdown = some 0 ∧
    (pauseElapsed (tick "f" staleAutoPauseState)).countdown = some 3 :=
  ⟨rfl, rfl, rfl, rfl, rfl, rfl⟩

/-- C5 amended: after a completed capture the continuation is decided by the
auto-mode flag and the pre-capture collection length: if auto mode is
enabled and the collection held fewer than `MAX_CAPTURE - 1` images before
the capture, a 1-second pause is scheduled after which a new countdown
seeded with the selected timer starts; otherwise `AutoSequencing` is
cleared and the countdown is set to `none`. -/
theorem post_capture_auto_continuation (st : PhotoState) (img : String)
    (hcam : st.isCameraStarted = true)
    (hmax : st.capturedImages.length < MAX_CAPTURE)
    (hcap : st.isCapturing = false)
    (hcd : st.countdown = some 0)
    (hhc : st.hasCaptured = false) :
    (st.isAutoModeEnabled = true → st.capturedImages.length < MAX_CAPTURE - 1 →
      (countdownEffect img st).pendingRestart = true ∧
      (countdownEffect img st).isAutoSequenceActive = st.isAutoSequenceActive ∧
      (pauseElapsed (countdownEffect img st)).countdown = some (selectedTimer st) ∧
      (pauseElapsed (countdownEffect img st)).hasCaptured = false) ∧
    ((st.isAutoModeEnabled = false ∨ MAX_CAPTURE - 1 ≤ st.capturedImages.length) →
      (countdownEffect img st).isAutoSequenceActive = false ∧
      (countdownEffect img st).countdown = none) := by
  have h1 : countdownEffect img st = captureImage img { st with hasCaptured := true } := by
    unfold countdownEffect
    rw [hcd]
    simp [hhc]
  have h2 : captureImage img { st with hasCaptured := true }
      = scheduleNextAutoCapture st.capturedImages.length
          { st with capturedImages := st.capturedImages ++ [img]
                    isCapturing := false
                    hasCaptured := true } := by
    unfold captureImage
    simp [hcam, hcap, isMaxCaptureReached, Nat.not_le.mpr hmax]
  constructor
  · intro hmode hlen
    rw [h1, h2]
    unfold scheduleNextAutoCapture
    simp only [decide_eq_true hlen, Bool.and_true, hmode, if_true]
    refine ⟨trivial, trivial, ?_, ?_⟩
    · unfold pauseElapsed
      simp [selectedTimer]
    · unfold pauseElapsed
      simp
  · intro h
    rw [h1, h2]
    unfold scheduleNextAutoCapture
    rcases h with h | h
    · simp [h]
    · simp [Nat.not_lt.mpr h]

/-- Witness for C5 (amended): the continue branch at an auto-sequence state
with an empty collection, and the stop branch at a manual-capture state. -/
theorem post_capture_auto_continuation_witness :
    ((countdownEffect "p" { initState with
        isCameraStarted := true
        isAutoModeEnabled := true
        isAutoSequenceActive := true
        countdown := some 0 }).pendingRestart = true ∧
      (countdownEffect "p" { initState with
        isCameraStarted := true
        isAutoModeEnabled := true
        isAutoSequenceActive := true
        countdown := some 0 }).isAutoSequenceActive
        = ({ initState with
              isCameraStarted := true
              isAutoModeEnabled := true
              isAutoSequenceActive := true
              countdown := some 0 } : PhotoState).isAutoSequenceActive ∧
      (pauseElapsed (countdownEffect "p" { initState with
        isCameraStarted := true
        isAutoModeEnabled := true
        isAutoSequenceActive := true
        countdown := some 0 })).countdown
        = some (selectedTimer { initState with
            isCameraStarted := true
            isAutoModeEnabled := true
            isAutoSequenceActive := true
            countdown := some 0 }) ∧
      (pauseElapsed (countdownEffect "p" { initState with
        isCameraStarted := true
        isAutoModeEnabled := true
        isAutoSequenceActive := true
        countdown := some 0 })).hasCaptured = false) ∧
    ((countdownEffect "q" { initState with
        isCameraStarted := true
        countdown := some 0 }).isAutoSequenceActive = false ∧
      (countdownEffect "q" { initState with
        isCameraStarted := true
        countdown := some 0 }).countdown = none) :=
  ⟨(post_capture_auto_continuation { initState with
        isCameraStarted := true
        isAutoModeEnabled := true
        isAutoSequenceActive := true
        countdown := some 0 } "p" rfl (by decide) rfl rfl rfl).1 rfl (by decide),
   (post_capture_auto_continuation { initState with
        isCameraStarted := true
        countdown := some 0 } "q" rfl (by decide) rfl rfl rfl).2 (Or.inl rfl)⟩

end Booth

namespace Booth

/-! ### Field-preservation lemmas for the transition system -/

@[simp] lemma captureImage_filters (img : String) (st : PhotoState) :
    (captureImage img st).filters = st.filters := by
  unfold captureImage
  split
  · rfl
  · simp

@[simp] lemma undoCapture_filters (st : PhotoState) :
    (undoCapture st).filters = st.filters := by
  unfold undoCapture
  split
  · rfl
  · split <;> rfl

@[simp] lemma resetCaptures_filters (st : PhotoState) :
    (resetCaptures st).filters = st.filters := by
  unfold resetCaptures
  split <;> rfl

@[simp] lemma startCapture_filters (st : PhotoState) :
    (startCapture st).filters = st.filters := by
  unfold startCapture
  split
  · rfl
  · split <;> rfl

@[simp] lemma startCapture_capturedImages (st : PhotoState) :
    (startCapture st).capturedImages = st.capturedImages := by
  unfold startCapture
  split
  · rfl
  · split <;> rfl

@[simp] lemma toggleAutoMode_filters (st : PhotoState) :
    (toggleAutoMode st).filters = st.filters := by
  unfold toggleAutoMode
  split
  · rfl
  · split <;> rfl

@[simp] lemma toggleAutoMode_capturedImages (st : PhotoState) :
    (toggleAutoMode st).capturedImages = st.capturedImages := by
  unfold toggleAutoMode
  split
  · rfl
  · split <;> rfl

@[simp] lemma cycleTimer_filters (st : PhotoState) :
    (cycleTimer st).filters = st.filters := by
  unfold cycleTimer
  split <;> rfl

@[simp] lemma cycleTimer_capturedImages (st : PhotoState) :
    (cycleTimer st).capturedImages = st.capturedImages := by
  unfold cycleTimer
  split <;> rfl

@[simp] lemma maxCaptureEffect_filters (st : PhotoState) :
    (maxCaptureEffect st).filters = st.filters := by
  unfold maxCaptureEffect
  split <;> rfl

@[simp] lemma maxCaptureEffect_capturedImages (st : PhotoState) :
    (maxCaptureEffect st).capturedImages = st.capturedImages := by
  unfold maxCaptureEffect
  split <;> rfl

@[simp] lemma resetFilters_capturedImages (st : PhotoState) :
    (resetFilters st).capturedImages = st.capturedImages := by
  unfold resetFilters
  split <;> rfl

@[simp] lemma toggleFilter_capturedImages (id : String) (st : PhotoState) :
    (toggleFilter id st).capturedImages = st.capturedImages := by
  unfold toggleFilter
  (repeat' split) <;> rfl

@[simp] lemma countdownEffect_filters (img : String) (st : PhotoState) :
    (countdownEffect img st).filters = st.filters := by
  unfold countdownEffect
  (repeat' split) <;> simp

@[simp] lemma tick_filters (img : String) (st : PhotoState) :
    (tick img st).filters = st.filters := by
  unfold tick
  (repeat' split) <;> simp

@[simp] lemma handleKeyDown_filters (k : String) (c : Bool) (st : PhotoState) :
    (handleKeyDown k c st).filters = st.filters := by
  unfold handleKeyDown
  (repeat' split) <;> simp [stopAutoSequence]

end Booth

namespace Booth

/-! ### C1: the collection never exceeds MAX_CAPTURE -/

lemma captureImage_length_le (img : String) (st : PhotoState)
    (h : st.capturedImages.length ≤ MAX_CAPTURE) :
    (captureImage img st).capturedImages.length ≤ MAX_CAPTURE := by
  unfold captureImage
  split
  · exact h
  · rename_i hg
    simp only [Bool.or_eq_true, Bool.not_eq_true', not_or] at hg
    have hlt : st.capturedImages.length < MAX_CAPTURE := by
      have := hg.1.2
      unfold isMaxCaptureReached at this
      simpa using this
    simp [Nat.succ_le_of_lt hlt]

lemma undoCapture_length_le (st : PhotoState)
    (h : st.capturedImages.length ≤ MAX_CAPTURE) :
    (undoCapture st).capturedImages.length ≤ MAX_CAPTURE := by
  unfold undoCapture
  split
  · exact h
  · split
    · exact h
    · simp only
      calc st.capturedImages.dropLast.length ≤ st.capturedImages.length :=
            by simp [List.length_dropLast]
        _ ≤ MAX_CAPTURE := h

lemma resetCaptures_length_le (st : PhotoState)
    (h : st.capturedImages.length ≤ MAX_CAPTURE) :
    (resetCaptures st).capturedImages.length ≤ MAX_CAPTURE := by
  unfold resetCaptures
  split
  · exact h
  · simp [stopAutoSequence]

lemma countdownEffect_length_le (img : String) (st : PhotoState)
    (h : st.capturedImages.length ≤ MAX_CAPTURE) :
    (countdownEffect img st).capturedImages.length ≤ MAX_CAPTURE := by
  unfold countdownEffect
  split
  · exact h
  · exact h
  · split
    · exact h
    · exact captureImage_length_le img { st with hasCaptured := true } h

lemma tick_length_le (img : String) (st : PhotoState)
    (h : st.capturedImages.length ≤ MAX_CAPTURE) :
    (tick img st).capturedImages.length ≤ MAX_CAPTURE := by
  unfold tick
  split
  · rename_i n _
    exact countdownEffect_length_le img { st with countdown := some n } h
  · exact h

lemma handleKeyDown_length_le (k : String) (c : Bool) (st : PhotoState)
    (h : st.capturedImages.length ≤ MAX_CAPTURE) :
    (handleKeyDown k c st).capturedImages.length ≤ MAX_CAPTURE := by
  unfold handleKeyDown
  split
  · split
    · exact h
    · split
      · simpa [stopAutoSequence] using h
      · split
        · simpa using h
        · exact h
  · split
    · exact undoCapture_length_le st h
    · split
      · exact resetCaptures_length_le st h
      · split
        · simpa using h
        · exact h

lemma step_length_le (e : Ev) (st : PhotoState)
    (h : st.capturedImages.length ≤ MAX_CAPTURE) :
    (step e st).capturedImages.length ≤ MAX_CAPTURE := by
  cases e with
  | cameraStarts =>
      simp only [step]
      split
      · exact h
      · simpa using h
  | cameraFails => simpa [step] using h
  | capture img => exact captureImage_length_le img st h
  | undo => exact undoCapture_length_le st h
  | reset => exact resetCaptures_length_le st h
  | filtersReset => simpa [step] using h
  | start => simpa [step] using h
  | stopSeq => simpa [step, stopAutoSequence] using h
  | autoToggle => simpa [step] using h
  | filterToggle id => simpa [step] using h
  | timerCycle => simpa [step] using h
  | tickEv img => exact tick_length_le img st h
  | effectRun img => exact countdownEffect_length_le img st h
  | pauseDone => simpa [step] using h
  | maxEffect => simpa [step] using h
  | keydown k c => exact handleKeyDown_length_le k c st h

lemma foldl_step_length_le (evs : List Ev) (st : PhotoState)
    (h : st.capturedImages.length ≤ MAX_CAPTURE) :
    (evs.foldl (fun s e => step e s) st).capturedImages.length ≤ MAX_CAPTURE := by
  induction evs generalizing st with
  | nil => exact h
  | cons e evs ih => exact ih (step e st) (step_length_le e st h)

/-- C1: along every event sequence from the initial state the collection
holds at most `MAX_CAPTURE` images, and `captureImage` leaves every state
whose collection already holds `MAX_CAPTURE` images completely unchanged. -/
theorem collection_never_exceeds_max (evs : List Ev) :
    (runEvents evs).capturedImages.length ≤ MAX_CAPTURE ∧
    ∀ st : PhotoState, ∀ img : String,
      st.capturedImages.length = MAX_CAPTURE → captureImage img st = st := by
  constructor
  · exact foldl_step_length_le evs initState (by simp [initState])
  · intro st img hfull
    unfold captureImage
    have : isMaxCaptureReached st = true := by
      unfold isMaxCaptureReached
      simp [hfull]
    simp [this]

/-- Witness for C1: a trace of ten direct captures fills the collection, and
an eleventh `captureImage` on the resulting full state is the identity. -/
theorem collection_never_exceeds_max_witness :
    captureImage "x" (runEvents (Ev.cameraStarts :: List.replicate 10 (Ev.capture "i")))
      = runEvents (Ev.cameraStarts :: List.replicate 10 (Ev.capture "i")) :=
  (collection_never_exceeds_max []).2
    (runEvents (Ev.cameraStarts :: List.replicate 10 (Ev.capture "i"))) "x" (by decide)

end Booth

namespace Booth

/-! ### C3: grayscale and sepia are never simultaneously non-zero -/

lemma toggleFilter_gray_sepia (id : String) (st : PhotoState)
    (h : st.filters.grayscale = 0 ∨ st.filters.sepia = 0) :
    (toggleFilter id st).filters.grayscale = 0 ∨ (toggleFilter id st).filters.sepia = 0 := by
  unfold toggleFilter
  (repeat' split) <;> simp_all

lemma step_gray_sepia (e : Ev) (st : PhotoState)
    (h : st.filters.grayscale = 0 ∨ st.filters.sepia = 0) :
    (step e st).filters.grayscale = 0 ∨ (step e st).filters.sepia = 0 := by
  cases e with
  | cameraStarts =>
      simp only [step]
      split
      · exact h
      · simpa using h
  | cameraFails => simpa [step] using h
  | capture img => simpa [step] using h
  | undo => simpa [step] using h
  | reset => simpa [step] using h
  | filtersReset =>
      simp only [step]
      unfold resetFilters
      split
      · exact h
      · right
        rfl
  | start => simpa [step] using h
  | stopSeq => simpa [step] using h
  | autoToggle => simpa [step] using h
  | filterToggle id => exact toggleFilter_gray_sepia id st h
  | timerCycle => simpa [step] using h
  | tickEv img => simpa [step] using h
  | effectRun img => simpa [step] using h
  | pauseDone => simpa [step] using h
  | maxEffect => simpa [step] using h
  | keydown k c => simpa [step] using h

lemma foldl_step_gray_sepia (evs : List Ev) (st : PhotoState)
    (h : st.filters.grayscale = 0 ∨ st.filters.sepia = 0) :
    (evs.foldl (fun s e => step e s) st).filters.grayscale = 0 ∨
    (evs.foldl (fun s e => step e s) st).filters.sepia = 0 := by
  induction evs generalizing st with
  | nil => exact h
  | cons e evs ih => exact ih (step e st) (step_gray_sepia e st h)

/-- C3: in every state reachable by any event sequence (in particular any
sequence of `toggleFilter` calls) the grayscale and sepia knobs are never
simultaneously non-zero: toggling either one writes zero into the other. -/
theorem grayscale_sepia_mutually_exclusive (evs : List Ev) :
    (runEvents evs).filters.grayscale = 0 ∨ (runEvents evs).filters.sepia = 0 :=
  foldl_step_gray_sepia evs initState (Or.inl rfl)

end Booth

namespace Booth

/-! ### C9: double-toggling a filter -/

/-- A state with the sepia filter active (reachable by toggling sepia once
after the camera starts). -/
def sepiaActiveState : PhotoState :=
  { initState with
      isCameraStarted := true
      filters := { brightness := 100, contrast := 100, grayscale := 0
                   sepia := 100, saturate := 100 }
      activeFilters := ["mirror", "sepia"] }

/-- C9 counterexample: toggling grayscale twice from a state with sepia
active does not restore the prior state — each grayscale toggle also writes
`sepia := 0` and strips `"sepia"` from the active list, so the sepia
setting is lost. -/
theorem double_toggle_grayscale_loses_sepia_cex :
    sepiaActiveState.filters.sepia = 100 ∧
    (toggleFilter "grayscale" (toggleFilter "grayscale" sepiaActiveState)).filters.sepia = 0 ∧
    (toggleFilter "grayscale" (toggleFilter "grayscale" sepiaActiveState)).filters
      ≠ sepiaActiveState.filters ∧
    "sepia" ∈ sepiaActiveState.activeFilters ∧
    "sepia" ∉ (toggleFilter "grayscale"
      (toggleFilter "grayscale" sepiaActiveState)).activeFilters :=
  ⟨rfl, rfl, by decide, by decide, by decide⟩

/-- The per-filter precondition under which a double toggle is the identity:
the toggled knob must sit at one of its two toggle values, and — because a
grayscale (resp. sepia) toggle forcibly zeroes the other knob and strips it
from the active list — the other of the two exclusive filters must be
inactive. -/
def toggleInvolHyp (id : String) (st : PhotoState) : Prop :=
  if id = "mirror" then True
  else if id = "grayscale" then
    (st.filters.grayscale = 0 ∨ st.filters.grayscale = 100) ∧
      st.filters.sepia = 0 ∧ "sepia" ∉ st.activeFilters
  else if id = "sepia" then
    (st.filters.sepia = 0 ∨ st.filters.sepia = 100) ∧
      st.filters.grayscale = 0 ∧ "grayscale" ∉ st.activeFilters
  else if id = "brightness" then
    st.filters.brightness = 100 ∨ st.filters.brightness = 130
  else if id = "contrast" then
    st.filters.contrast = 100 ∨ st.filters.contrast = 130
  else if id = "saturate" then
    st.filters.saturate = 100 ∨ st.filters.saturate = 150
  else False

/-- C9 amended: with the camera started, toggling any one filter identifier
twice restores `filters`, the mirror flag, and membership in the active
filter list, provided `toggleInvolHyp` holds — in particular, for the
grayscale (resp. sepia) toggle, the sepia (resp. grayscale) filter must be
inactive beforehand. -/
theorem toggle_involution (id : String) (st : PhotoState)
    (hcam : st.isCameraStarted = true) (h : toggleInvolHyp id st) :
    (toggleFilter id (toggleFilter id st)).filters = st.filters ∧
    (toggleFilter id (toggleFilter id st)).isMirrored = st.isMirrored ∧
    ∀ f, f ∈ (toggleFilter id (toggleFilter id st)).activeFilters ↔
      f ∈ st.activeFilters := by
  obtain ⟨⟨b, c, g, s, sa⟩, mir, cam, err, act, cap, mode, seq, ti, cd, imgs, hcp, pr⟩ := st
  simp only at hcam
  subst hcam
  unfold toggleInvolHyp at h
  by_cases hid1 : id = "mirror"
  · subst hid1
    by_cases hc : "mirror" ∈ act <;>
      refine ⟨?_, ?_, ?_⟩ <;>
        simp [toggleFilter, filterDisabled, hc, List.mem_filter, List.mem_append,
          bne_iff_ne] <;>
          (intro f
           by_cases hfx : f = "mirror" <;> simp [hfx, hc])
  · rw [if_neg hid1] at h
    by_cases hid2 : id = "grayscale"
    · subst hid2
      rw [if_pos rfl] at h
      simp only at h
      obtain ⟨hg, hs, hsa⟩ := h
      subst hs
      by_cases hc : "grayscale" ∈ act <;>
        rcases hg with hb | hb <;>
          subst hb <;>
            refine ⟨?_, ?_, ?_⟩ <;>
              simp [toggleFilter, filterDisabled, hc, List.mem_filter, List.mem_append,
                bne_iff_ne] <;>
                (intro f
                 by_cases hfx : f = "grayscale" <;> by_cases hfy : f = "sepia" <;>
                   simp [hfx, hfy, hc, hsa])
    · rw [if_neg hid2] at h
      by_cases hid3 : id = "sepia"
      · subst hid3
        rw [if_pos rfl] at h
        simp only at h
        obtain ⟨hg, hs, hsa⟩ := h
        subst hs
        by_cases hc : "sepia" ∈ act <;>
          rcases hg with hb | hb <;>
            subst hb <;>
              refine ⟨?_, ?_, ?_⟩ <;>
                simp [toggleFilter, filterDisabled, hc, List.mem_filter, List.mem_append,
                  bne_iff_ne] <;>
                  (intro f
                   by_cases hfx : f = "sepia" <;> by_cases hfy : f = "grayscale" <;>
                     simp [hfx, hfy, hc, hsa])
      · rw [if_neg hid3] at h
        by_cases hid4 : id = "brightness"
        · subst hid4
          rw [if_pos rfl] at h
          simp only at h
          by_cases hc : "brightness" ∈ act <;>
            rcases h with hb | hb <;>
              subst hb <;>
                refine ⟨?_, ?_, ?_⟩ <;>
                  simp [toggleFilter, filterDisabled, hc, List.mem_filter,
                    List.mem_append, bne_iff_ne] <;>
                    (intro f
                     by_cases hfx : f = "brightness" <;> simp [hfx, hc])
        · rw [if_neg hid4] at h
          by_cases hid5 : id = "contrast"
          · subst hid5
            rw [if_pos rfl] at h
            simp only at h
            by_cases hc : "contrast" ∈ act <;>
              rcases h with hb | hb <;>
                subst hb <;>
                  refine ⟨?_, ?_, ?_⟩ <;>
                    simp [toggleFilter, filterDisabled, hc, List.mem_filter,
                      List.mem_append, bne_iff_ne] <;>
                      (intro f
                       by_cases hfx : f = "contrast" <;> simp [hfx, hc])
          · rw [if_neg hid5] at h
            by_cases hid6 : id = "saturate"
            · subst hid6
              rw [if_pos rfl] at h
              simp only at h
              by_cases hc : "saturate" ∈ act <;>
                rcases h with hb | hb <;>
                  subst hb <;>
                    refine ⟨?_, ?_, ?_⟩ <;>
                      simp [toggleFilter, filterDisabled, hc, List.mem_filter,
                        List.mem_append, bne_iff_ne] <;>
                        (intro f
                         by_cases hfx : f = "saturate" <;> simp [hfx, hc])
            · rw [if_neg hid6] at h
              exact h.elim

/-- Witness for C9 (amended): double-toggling brightness at the
camera-started initial state restores the filter settings, the mirror flag
and the active-filter membership. -/
theorem toggle_involution_witness :
    (toggleFilter "brightness" (toggleFilter "brightness"
        { initState with isCameraStarted := true })).filters
      = ({ initState with isCameraStarted := true } : PhotoState).filters ∧
    (toggleFilter "brightness" (toggleFilter "brightness"
        { initState with isCameraStarted := true })).isMirrored
      = ({ initState with isCameraStarted := true } : PhotoState).isMirrored ∧
    ∀ f, f ∈ (toggleFilter "brightness" (toggleFilter "brightness"
        { initState with isCameraStarted := true })).activeFilters ↔
      f ∈ ({ initState with isCameraStarted := true } : PhotoState).activeFilters :=
  toggle_involution "brightness" { initState with isCameraStarted := true } rfl
    (by unfold toggleInvolHyp; simp [initState, DEFAULT_FILTERS])

end Booth
